import Mathlib

/-!
# SteamDashboard — game-stats-service live-Dota hydration, shallow embedding

This file embeds the parts of `packages/game-stats-service/src` that the
hydration claims are about:

* `lib/http.ts`  — `fetchWithRetry` (retry loop; any non-2xx response is
  turned into a thrown error and retried);
* `index.ts`     — `getFeaturedDotaGames`, `hydrateLeagues`, `hydrateTeams`,
  `seriesText`, `formatObjectiveState`, and the `/live/dota/featured`
  endpoint handler.

Modelling conventions:
* JavaScript `undefined`/absent fields are `Option _`; the JS truthiness
  test `x ? a : b` on an optional number is `none`/`some 0` falsy, and on an
  optional string `none`/`some ""` falsy (`jsOrStr`, `jsOrStrD`).
* A `Map<number, V>` is an association list `List (Nat × V)`; `Map.set` is
  modelled by prepending (lookup-equivalent to overwrite, and none of the
  embedded code iterates over a map whose insertion order matters).
* `async` network effects are passed in as explicit outcome parameters:
  each fetch attempt is an `Except String Response`; a JSON-body parse is an
  `Except String _` function of the response.  A thrown JS error is the
  `.error` case of `Except`.
* The module-global caches (`leagueCache`, `teamCache`) are threaded
  explicitly: the hydrate functions take the cache and return the updated
  cache next to the map the source returns.  `Date.now()` is a `now : Int`
  parameter (milliseconds).
-/

namespace SteamDashboard

/-- JS `a || b` where both sides are optional strings:
`undefined` and `""` are falsy. -/
def jsOrStr (a b : Option String) : Option String :=
  match a with
  | some s => if s = "" then b else some s
  | none => b

/-- JS `a || d` with a (total) string default: `undefined` and `""` are falsy. -/
def jsOrStrD (a : Option String) (d : String) : String :=
  match a with
  | some s => if s = "" then d else s
  | none => d

/-- How a template literal renders an optional number
(`undefined` prints as the string `"undefined"`). -/
def jsShowNum (a : Option Int) : String :=
  match a with
  | some n => toString n
  | none => "undefined"

/-! ## `lib/http.ts` -/

/-- The subset of a fetch `Response` the embedded code reads. -/
structure Response where
  status : Nat
  body : String
deriving DecidableEq, Repr

/-- `Response.ok`: status in the 2xx range. -/
def Response.ok (r : Response) : Bool :=
  200 ≤ r.status && r.status < 300

/-- Outcome of a single `fetch` attempt: resolves with a response or rejects. -/
abbrev FetchOutcome := Except String Response

/-- The `while (attempt <= retries)` loop of `fetchWithRetry`, with
`remaining` attempts left and the current attempt index `attempt`.
A resolved but non-ok response raises `Request failed (status)` and is
retried like a rejection; the last error is rethrown when attempts run out. -/
def fetchRun (fetchAt : Nat → FetchOutcome) (attempt : Nat) : Nat → Except String Response
  | 0 => .error "Unknown fetch error"
  | remaining + 1 =>
    match fetchAt attempt with
    | .ok r =>
      if r.ok then .ok r
      else if remaining = 0 then .error ("Request failed (" ++ toString r.status ++ ")")
      else fetchRun fetchAt (attempt + 1) remaining
    | .error e =>
      if remaining = 0 then .error e
      else fetchRun fetchAt (attempt + 1) remaining

/-- `fetchWithRetry(url, init, retries, backoffMs)`: up to `retries + 1`
attempts; backoff delays do not affect the value and are not modelled. -/
def fetchWithRetry (fetchAt : Nat → FetchOutcome) (retries : Nat) : Except String Response :=
  fetchRun fetchAt 0 (retries + 1)

/-- `Map.get`: first binding for the key (newest, since `set` prepends). -/
def mapGet {α : Type} (m : List (Nat × α)) (k : Nat) : Option α :=
  (m.find? (fun p => p.1 == k)).map (fun p => p.2)

/-- `Map.set`: prepend; lookup-equivalent to overwriting the key. -/
def mapSet {α : Type} (m : List (Nat × α)) (k : Nat) (v : α) : List (Nat × α) :=
  (k, v) :: m

/-- A `leagueCache` entry: `{ name, tier?, lastUpdated }`. -/
structure LeagueCacheEntry where
  name : String
  tier : Option String
  lastUpdated : Int
deriving DecidableEq, Repr

/-- A value of the map `hydrateLeagues` returns: `{ name, tier? }`. -/
structure LeagueEntry where
  name : String
  tier : Option String
deriving DecidableEq, Repr

/-- A `teamCache` entry: `{ name, logo?, lastUpdated }`. -/
structure TeamCacheEntry where
  name : String
  logo : Option String
  lastUpdated : Int
deriving DecidableEq, Repr

/-- A value of the map `hydrateTeams` returns: `{ name, logo? }`. -/
structure TeamEntry where
  name : String
  logo : Option String
deriving DecidableEq, Repr

abbrev LeagueCache := List (Nat × LeagueCacheEntry)
abbrev TeamCache := List (Nat × TeamCacheEntry)
abbrev LeagueMap := List (Nat × LeagueEntry)
abbrev TeamMap := List (Nat × TeamEntry)

/-- One league record of the upstream `GetLeagueListing` catalog:
`{leagueid, name, tier}`. -/
structure CatalogLeague where
  leagueid : Nat
  name : String
  tier : Option String
deriving DecidableEq, Repr

/-- One team record of the upstream `GetTeamInfoByTeamID` response
(`json?.result?.teams?.[0]`): the fields the code reads. -/
structure TeamApiEntry where
  name : Option String
  tag : Option String
  logo_url : Option String
  logo : Option String
deriving DecidableEq, Repr

/-! ## `hydrateLeagues` -/

/-- The 5-minute freshness window in milliseconds (`5 * 60 * 1000`). -/
def freshWindowMs : Int := 5 * 60 * 1000

/-- Whether `leagueCache` holds a fresh entry for `id`:
`cached && cached.lastUpdated > Date.now() - 5*60*1000`. -/
def isFreshLeague (cache : LeagueCache) (now : Int) (id : Nat) : Bool :=
  match mapGet cache id with
  | some c => now - freshWindowMs < c.lastUpdated
  | none => false

/-- The first loop of `hydrateLeagues`: seed the result map with every
requested id that has a fresh cache entry. -/
def leagueHitsMap (cache : LeagueCache) (now : Int) (ids : List Nat) : LeagueMap :=
  ids.foldl
    (fun m id =>
      match mapGet cache id with
      | some c =>
        if now - freshWindowMs < c.lastUpdated then mapSet m id ⟨c.name, c.tier⟩ else m
      | none => m)
    []

/-- `const missing = ids.filter((id) => !map.has(id))`. -/
def leagueMissing (cache : LeagueCache) (now : Int) (ids : List Nat) : List Nat :=
  ids.filter (fun id => (mapGet (leagueHitsMap cache now ids) id).isNone)

/-- The catalog-refresh loop (`leagues.forEach(...)`): write every returned
league into the cache with a fresh timestamp, and copy the requested ones
into the result map. -/
def leagueRefresh (ids : List Nat) (now : Int) (leagues : List CatalogLeague)
    (start : LeagueMap × LeagueCache) : LeagueMap × LeagueCache :=
  leagues.foldl
    (fun p l =>
      let cache' := mapSet p.2 l.leagueid ⟨l.name, l.tier, now⟩
      if ids.contains l.leagueid then (mapSet p.1 l.leagueid ⟨l.name, l.tier⟩, cache')
      else (p.1, cache'))
    start

/-- `hydrateLeagues(ids)`.  `catalog` is the outcome of
`fetchWithRetry(GetLeagueListing, ..., 1, 300)` followed by `resp.json()`
and `json?.result?.leagues || []`; there is no try/catch around it, so a
`.error` outcome propagates.  The updated module-global `leagueCache` is
returned next to the map. -/
def hydrateLeagues (cache : LeagueCache) (now : Int)
    (catalog : Except String (List CatalogLeague)) (ids : List Nat) :
    Except String (LeagueMap × LeagueCache) :=
  let map := leagueHitsMap cache now ids
  if (leagueMissing cache now ids).isEmpty then .ok (map, cache)
  else
    match catalog with
    | .error e => .error e
    | .ok leagues => .ok (leagueRefresh ids now leagues (map, cache))

/-- Whether `hydrateLeagues` reaches the upstream catalog call: exactly when
some requested id missed the fresh-cache pass. -/
def leagueCallMade (cache : LeagueCache) (now : Int) (ids : List Nat) : Bool :=
  !(leagueMissing cache now ids).isEmpty

/-! ## `hydrateTeams` -/

/-- Whether `teamCache` holds a fresh entry for `id`. -/
def isFreshTeam (cache : TeamCache) (now : Int) (id : Nat) : Bool :=
  match mapGet cache id with
  | some c => now - freshWindowMs < c.lastUpdated
  | none => false

/-- First loop of `hydrateTeams`: skip falsy ids (`if (!id) continue`), copy
fresh cache entries into the map, push the rest onto `missing` in order. -/
def teamPhase1 (cache : TeamCache) (now : Int) (ids : List Nat) : TeamMap × List Nat :=
  ids.foldl
    (fun p id =>
      if id = 0 then p
      else
        match mapGet cache id with
        | some c =>
          if now - freshWindowMs < c.lastUpdated then (mapSet p.1 id ⟨c.name, c.logo⟩, p.2)
          else (p.1, p.2 ++ [id])
        | none => (p.1, p.2 ++ [id]))
    ([], [])

/-- The name stored for a fetched team entry:
`entry.name || entry.tag ||` the synthesized label `Team <id>`. -/
def teamFetchedName (id : Nat) (e : TeamApiEntry) : String :=
  jsOrStrD e.name (jsOrStrD e.tag ("Team " ++ toString id))

/-- `entry.logo_url || entry.logo`. -/
def teamFetchedLogo (e : TeamApiEntry) : Option String :=
  jsOrStr e.logo_url e.logo

/-- Second loop of `hydrateTeams`: one upstream call per missing id.
`fetchTeam id` is the outcome of `fetchWithRetry` + `resp.json()` +
`json?.result?.teams?.[0]` for that id; the whole body is inside
`try { ... } catch` so a `.error` outcome is logged and skipped, and a
response without a team entry (`.ok none`) is skipped by `if (entry)`. -/
def teamPhase2 (now : Int) (fetchTeam : Nat → Except String (Option TeamApiEntry))
    (missing : List Nat) (start : TeamMap × TeamCache) : TeamMap × TeamCache :=
  missing.foldl
    (fun p id =>
      match fetchTeam id with
      | .error _ => p
      | .ok none => p
      | .ok (some entry) =>
        let nm := teamFetchedName id entry
        let lg := teamFetchedLogo entry
        (mapSet p.1 id ⟨nm, lg⟩, mapSet p.2 id ⟨nm, lg, now⟩))
    start

/-- `hydrateTeams(ids)`: never throws; returns the map and the updated
module-global `teamCache`. -/
def hydrateTeams (cache : TeamCache) (now : Int)
    (fetchTeam : Nat → Except String (Option TeamApiEntry)) (ids : List Nat) :
    TeamMap × TeamCache :=
  let p := teamPhase1 cache now ids
  teamPhase2 now fetchTeam p.2 (p.1, cache)

/-! ## Raw feed records (`json?.game_list`) -/

/-- One entry of a raw match's `players` array: the fields the code reads. -/
structure RawPlayer where
  account_id : Option Int
  hero_id : Option Int
  kills : Option Int
  deaths : Option Int
  assists : Option Int
  gpm : Option Int
  xpm : Option Int
  net_worth : Option Int
  level : Option Int
  team : Option Int
  name : Option String
deriving DecidableEq, Repr

/-- One raw match of the `GetTopLiveGame` feed: the fields the code reads.
Numeric ids are `Option Nat` (absent fields are dropped by the
`Number.isFinite` filters before hydration). -/
structure RawMatch where
  match_id : Option Nat
  spectators : Option Nat
  average_mmr : Option Nat
  radiant_team_id : Option Nat
  dire_team_id : Option Nat
  radiant_name : Option String
  dire_name : Option String
  radiant_score : Option Nat
  dire_score : Option Nat
  radiant_tower_state : Option Int
  dire_tower_state : Option Int
  radiant_barracks_state : Option Int
  dire_barracks_state : Option Int
  game_time : Option Int
  roshan_respawn_timer : Option Int
  league_id : Option Nat
  series_type : Option Int
  game_number : Option Nat
  start_time : Option Nat
  players : List RawPlayer
deriving DecidableEq, Repr

/-! ## Output shape -/

/-- The `radiant`/`dire` sub-object of a hydrated match. -/
structure HydratedSide where
  name : Option String
  score : Option Nat
  towers : Option Int
  barracks : Option Int
  logo : Option String
  id : Option Nat
deriving DecidableEq, Repr

/-- One entry of a hydrated match's `players` array. -/
structure HydratedPlayer where
  accountId : Option Int
  heroId : Option Int
  kills : Option Int
  deaths : Option Int
  assists : Option Int
  gpm : Option Int
  xpm : Option Int
  netWorth : Option Int
  level : Option Int
  team : Option Int
  name : Option String
deriving DecidableEq, Repr

/-- A hydrated match as produced by `getFeaturedDotaGames`. -/
structure HydratedMatch where
  matchId : Option Nat
  spectators : Option Nat
  averageMmr : Option Nat
  radiant : HydratedSide
  dire : HydratedSide
  durationSeconds : Option Int
  roshanRespawnTimer : Option Int
  league : Option Nat
  leagueName : Option String
  seriesType : String
  gameNumber : Option Nat
  startTime : Option Nat
  state : String
  players : List HydratedPlayer
deriving DecidableEq, Repr

/-! ## Pure formatting helpers (`seriesText`, `formatObjectiveState`) -/

/-- `seriesText(seriesType?)`: the `switch` over the upstream series code. -/
def seriesText (seriesType : Option Int) : String :=
  if seriesType = some 0 then "Bo1"
  else if seriesType = some 1 then "Bo3"
  else if seriesType = some 2 then "Bo5"
  else "Live"

/-- The local `towers` template string of `formatObjectiveState`. -/
def towersStr (g : RawMatch) : String :=
  "Towers R" ++ jsShowNum g.radiant_tower_state ++ " / D" ++ jsShowNum g.dire_tower_state

/-- The local `barracks` template string of `formatObjectiveState`. -/
def barracksStr (g : RawMatch) : String :=
  "Barracks R" ++ jsShowNum g.radiant_barracks_state ++ " / D" ++ jsShowNum g.dire_barracks_state

/-- The local `rosh` string: `g.roshan_respawn_timer ? ... : "Roshan unknown"`
(a respawn timer of `0` is falsy and reads as unknown). -/
def roshStr (timer : Option Int) : String :=
  match timer with
  | some t => if t = 0 then "Roshan unknown" else "Roshan in " ++ toString t ++ "s"
  | none => "Roshan unknown"

/-- `formatObjectiveState(g)`. -/
def formatObjectiveState (g : RawMatch) : String :=
  towersStr g ++ " • " ++ barracksStr g ++ " • " ++ roshStr g.roshan_respawn_timer

/-! ## The merge step of `getFeaturedDotaGames` -/

/-- `teamMap.get(id)` where the key may be absent
(`Map.get(undefined)` is `undefined`). -/
def teamMapGetOpt (tm : TeamMap) (id : Option Nat) : Option TeamEntry :=
  id.bind (mapGet tm)

/-- A side's display name: `teamMap.get(id)?.name || rawName`. -/
def resolveSideName (tm : TeamMap) (id : Option Nat) (rawName : Option String) : Option String :=
  jsOrStr ((teamMapGetOpt tm id).map TeamEntry.name) rawName

/-- A side's logo: `teamMap.get(id)?.logo`. -/
def resolveSideLogo (tm : TeamMap) (id : Option Nat) : Option String :=
  (teamMapGetOpt tm id).bind TeamEntry.logo

/-- `leagueMap.get(g.league_id)?.name` — note: no fallback. -/
def resolveLeagueName (lm : LeagueMap) (id : Option Nat) : Option String :=
  (id.bind (mapGet lm)).map LeagueEntry.name

/-- The per-player mapping inside the merge. -/
def mergePlayer (p : RawPlayer) : HydratedPlayer :=
  { accountId := p.account_id
    heroId := p.hero_id
    kills := p.kills
    deaths := p.deaths
    assists := p.assists
    gpm := p.gpm
    xpm := p.xpm
    netWorth := p.net_worth
    level := p.level
    team := p.team
    name := p.name }

/-- The body of `games.map((g) => ({...}))` in `getFeaturedDotaGames`. -/
def mergeMatch (lm : LeagueMap) (tm : TeamMap) (g : RawMatch) : HydratedMatch :=
  { matchId := g.match_id
    spectators := g.spectators
    averageMmr := g.average_mmr
    radiant :=
      { name := resolveSideName tm g.radiant_team_id g.radiant_name
        score := g.radiant_score
        towers := g.radiant_tower_state
        barracks := g.radiant_barracks_state
        logo := resolveSideLogo tm g.radiant_team_id
        id := g.radiant_team_id }
    dire :=
      { name := resolveSideName tm g.dire_team_id g.dire_name
        score := g.dire_score
        towers := g.dire_tower_state
        barracks := g.dire_barracks_state
        logo := resolveSideLogo tm g.dire_team_id
        id := g.dire_team_id }
    durationSeconds := g.game_time
    roshanRespawnTimer := g.roshan_respawn_timer
    league := g.league_id
    leagueName := resolveLeagueName lm g.league_id
    seriesType := seriesText g.series_type
    gameNumber := g.game_number
    startTime := g.start_time
    state := formatObjectiveState g
    players := g.players.map mergePlayer }

/-- The final `games.map(...)` of `getFeaturedDotaGames`. -/
def hydrateMerge (lm : LeagueMap) (tm : TeamMap) (games : List RawMatch) : List HydratedMatch :=
  games.map (mergeMatch lm tm)

/-! ## Id collection (`getFeaturedDotaGames`, lines 390–399) -/

/-- Worker for `dedupFirst`: `seen` is the set built so far. -/
def dedupFirstGo (seen : List Nat) : List Nat → List Nat
  | [] => []
  | x :: xs => if seen.contains x then dedupFirstGo seen xs else x :: dedupFirstGo (x :: seen) xs

/-- `Array.from(new Set(...))`: deduplicate keeping first occurrences
(JS `Set` iterates in insertion order). -/
def dedupFirst : List Nat → List Nat :=
  dedupFirstGo []

/-- Distinct league ids referenced by the feed
(absent `league_id` fields fail the `Number.isFinite` filter). -/
def collectLeagueIds (games : List RawMatch) : List Nat :=
  dedupFirst (games.filterMap RawMatch.league_id)

/-- Distinct team ids (radiant then dire, per match, flattened). -/
def collectTeamIds (games : List RawMatch) : List Nat :=
  dedupFirst ((games.flatMap (fun g => [g.radiant_team_id, g.dire_team_id])).filterMap id)

/-! ## `getFeaturedDotaGames` and the `/live/dota/featured` handler -/

/-- `getFeaturedDotaGames()`.

* `feedAt` — the outcome of each individual `fetch` attempt on the
  `GetTopLiveGame` feed; `fetchWithRetry(url, init, 2, 300)` walks them.
  The `.catch((err) => null)` swallows a rejected retry chain and
  `if (!resp) return []` yields the empty list.
* The `!resp.ok` branch (404 → `[]`, otherwise throw
  `top live failed ...`) is translated as written, although
  `fetchWithRetry` can only return an ok response.
* `feedBody resp` — the outcome of `resp.json()` followed by
  `json?.game_list || []` (a thrown JSON parse is its `.error` case, and
  there is no try/catch around it here).
* League hydration errors propagate through `Promise.all`; team hydration
  never fails.  The updated global caches are dropped here because the
  response does not read them. -/
def getFeaturedDotaGames (feedAt : Nat → FetchOutcome)
    (feedBody : Response → Except String (List RawMatch))
    (leagueCache : LeagueCache) (teamCache : TeamCache) (now : Int)
    (catalog : Except String (List CatalogLeague))
    (fetchTeam : Nat → Except String (Option TeamApiEntry)) :
    Except String (List HydratedMatch) :=
  match fetchWithRetry feedAt 2 with
  | .error _ => .ok []
  | .ok resp =>
    if !resp.ok then
      if resp.status = 404 then .ok []
      else .error ("top live failed " ++ toString resp.status ++ " " ++ resp.body)
    else
      match feedBody resp with
      | .error e => .error e
      | .ok games =>
        match hydrateLeagues leagueCache now catalog (collectLeagueIds games) with
        | .error e => .error e
        | .ok (leagueMap, _) =>
          let (teamMap, _) := hydrateTeams teamCache now fetchTeam (collectTeamIds games)
          .ok (hydrateMerge leagueMap teamMap games)

/-- The JSON body the `/live/dota/featured` handler can send. -/
inductive LiveBody where
  | success (count : Nat) (items : List HydratedMatch)
  | failure (error : String) (message : Option String)
deriving DecidableEq, Repr

/-- The `/live/dota/featured` handler: HTTP status code and JSON body.
`res.json({count, items})` defaults to status 200; the catch block sends
`res.status(500).json({error: "failed_to_fetch_live", message})`. -/
def liveDotaFeatured (hasApiKey : Bool) (feedAt : Nat → FetchOutcome)
    (feedBody : Response → Except String (List RawMatch))
    (leagueCache : LeagueCache) (teamCache : TeamCache) (now : Int)
    (catalog : Except String (List CatalogLeague))
    (fetchTeam : Nat → Except String (Option TeamApiEntry)) :
    Nat × LiveBody :=
  if !hasApiKey then (500, .failure "missing_api_key" none)
  else
    match getFeaturedDotaGames feedAt feedBody leagueCache teamCache now catalog fetchTeam with
    | .ok games => (200, .success games.length games)
    | .error msg => (500, .failure "failed_to_fetch_live" (some msg))

/-! ## Derived per-id entry helpers (used to characterize the cache passes) -/

/-- The map value a fresh league cache hit contributes for `id` (if any). -/
def freshLeagueEntry (cache : LeagueCache) (now : Int) (id : Nat) : Option LeagueEntry :=
  match mapGet cache id with
  | some c => if now - freshWindowMs < c.lastUpdated then some ⟨c.name, c.tier⟩ else none
  | none => none

/-- The map value a fresh team cache hit contributes for `id` (if any). -/
def freshTeamEntry (cache : TeamCache) (now : Int) (id : Nat) : Option TeamEntry :=
  match mapGet cache id with
  | some c => if now - freshWindowMs < c.lastUpdated then some ⟨c.name, c.logo⟩ else none
  | none => none

/-- The map value a successful team fetch contributes for `id` (if any). -/
def fetchedTeamEntry (fetchTeam : Nat → Except String (Option TeamApiEntry)) (id : Nat) :
    Option TeamEntry :=
  match fetchTeam id with
  | .ok (some entry) => some ⟨teamFetchedName id entry, teamFetchedLogo entry⟩
  | _ => none


/-! ## Concrete fixtures used by witnesses and counterexamples -/

/-- A plain raw match with no league or team references. -/
def baseRaw : RawMatch :=
  { match_id := some 7315299741
    spectators := some 120
    average_mmr := some 6400
    radiant_team_id := none
    dire_team_id := none
    radiant_name := none
    dire_name := none
    radiant_score := some 5
    dire_score := some 3
    radiant_tower_state := some 1983
    dire_tower_state := some 2047
    radiant_barracks_state := some 63
    dire_barracks_state := some 55
    game_time := some 900
    roshan_respawn_timer := none
    league_id := some 0
    series_type := some 1
    game_number := some 2
    start_time := some 1700000000
    players := [] }

/-- A raw match referencing league 7 and nothing else. -/
def rawLeague7 : RawMatch :=
  { baseRaw with league_id := some 7 }

/-- A raw match whose radiant side references team 5 with no raw name. -/
def rawTeam5 : RawMatch :=
  { baseRaw with league_id := none, radiant_team_id := some 5 }

/-- Feed attempts that always succeed with a 200 response. -/
def feedOkAt : Nat → FetchOutcome := fun _ => .ok ⟨200, "feed-body"⟩

/-- Feed attempts that always yield an HTTP 404 response. -/
def feed404At : Nat → FetchOutcome := fun _ => .ok ⟨404, "not found"⟩

/-- Feed attempts that always reject (upstream totally unavailable). -/
def feedDownAt : Nat → FetchOutcome := fun _ => .error "ECONNREFUSED"

/-- Team lookups that succeed but return no team entry. -/
def noTeams : Nat → Except String (Option TeamApiEntry) := fun _ => .ok none

/-- Team lookups that always fail. -/
def teamsDown : Nat → Except String (Option TeamApiEntry) := fun _ => .error "team api down"

/-- A team-info payload with only a `name` field. -/
def liquidEntry : TeamApiEntry := ⟨some "Liquid", none, none, none⟩

/-- Team lookups: team 9 fetches `liquidEntry`, everything else fails. -/
def ftDemo : Nat → Except String (Option TeamApiEntry) :=
  fun id => if id = 9 then .ok (some liquidEntry) else .error "boom"

/-! ## Theorems -/

/-- `fetchWithRetry` only ever returns a response that passed the `res.ok`
check: every non-2xx response is converted into a thrown error. -/
theorem fetchRun_ok {fetchAt : Nat → FetchOutcome} {attempt n : Nat} {r : Response}
    (h : fetchRun fetchAt attempt n = .ok r) : r.ok = true := by
  induction n generalizing attempt with
  | zero => simp [fetchRun] at h
  | succ m ih =>
    rcases hf : fetchAt attempt with e | r'
    · simp only [fetchRun, hf] at h
      split at h
      · exact absurd h (by simp)
      · exact ih h
    · simp only [fetchRun, hf] at h
      by_cases hok : r'.ok
      · rw [if_pos hok] at h
        cases h
        exact hok
      · rw [if_neg hok] at h
        split at h
        · exact absurd h (by simp)
        · exact ih h

theorem fetchWithRetry_ok {fetchAt : Nat → FetchOutcome} {retries : Nat} {r : Response}
    (h : fetchWithRetry fetchAt retries = .ok r) : r.ok = true :=
  fetchRun_ok h

/-- If every attempt rejects or yields a non-ok response, the whole call
throws (the precise message depends on the last attempt). -/
theorem fetchRun_error (fetchAt : Nat → FetchOutcome) (attempt n : Nat)
    (h : ∀ k, ∀ r : Response, fetchAt k = .ok r → r.ok = false) :
    ∃ e, fetchRun fetchAt attempt n = .error e := by
  induction n generalizing attempt with
  | zero => exact ⟨"Unknown fetch error", rfl⟩
  | succ m ih =>
    rcases hf : fetchAt attempt with e | r
    · simp only [fetchRun, hf]
      rcases Nat.eq_zero_or_pos m with hm | hm
      · subst hm
        exact ⟨e, by simp⟩
      · obtain ⟨e', he'⟩ := ih (attempt + 1)
        exact ⟨e', by rw [if_neg (Nat.pos_iff_ne_zero.mp hm)]; exact he'⟩
    · simp only [fetchRun, hf]
      rw [if_neg (by simp [h attempt r hf])]
      rcases Nat.eq_zero_or_pos m with hm | hm
      · subst hm
        exact ⟨"Request failed (" ++ toString r.status ++ ")", by simp⟩
      · obtain ⟨e', he'⟩ := ih (attempt + 1)
        exact ⟨e', by rw [if_neg (Nat.pos_iff_ne_zero.mp hm)]; exact he'⟩

theorem fetchWithRetry_error (fetchAt : Nat → FetchOutcome) (retries : Nat)
    (h : ∀ k, ∀ r : Response, fetchAt k = .ok r → r.ok = false) :
    ∃ e, fetchWithRetry fetchAt retries = .error e :=
  fetchRun_error fetchAt 0 (retries + 1) h

/-! ## Lookup lemmas for the map model -/

theorem mapGet_nil {α : Type} (k : Nat) : mapGet ([] : List (Nat × α)) k = none := rfl

theorem mapGet_mapSet {α : Type} (m : List (Nat × α)) (k k' : Nat) (v : α) :
    mapGet (mapSet m k v) k' = if k' = k then some v else mapGet m k' := by
  simp only [mapGet, mapSet, List.find?]
  by_cases h : k = k'
  · subst h
    simp
  · rw [show (k == k') = false from beq_eq_false_iff_ne.mpr h]
    simp [Ne.symm h]

/-! ## Characterizing the `hydrateLeagues` cache pass -/

theorem freshLeagueEntry_isSome (cache : LeagueCache) (now : Int) (id : Nat) :
    (freshLeagueEntry cache now id).isSome = isFreshLeague cache now id := by
  unfold freshLeagueEntry isFreshLeague
  rcases mapGet cache id with _ | c
  · rfl
  · by_cases h : now - freshWindowMs < c.lastUpdated <;> simp [h]

/-- What the first `hydrateLeagues` loop leaves at key `id`, for any starting
accumulator: requested-and-fresh ids get their cache entry, everything else
is untouched. -/
theorem leagueHits_foldl_get (cache : LeagueCache) (now : Int) (ids : List Nat)
    (acc : LeagueMap) (id : Nat) :
    mapGet (ids.foldl (fun m i =>
        match mapGet cache i with
        | some c =>
          if now - freshWindowMs < c.lastUpdated then mapSet m i ⟨c.name, c.tier⟩ else m
        | none => m) acc) id =
      if id ∈ ids ∧ (freshLeagueEntry cache now id).isSome = true
      then freshLeagueEntry cache now id else mapGet acc id := by
  induction ids generalizing acc with
  | nil => simp
  | cons x xs ih =>
    rw [List.foldl_cons, ih]
    by_cases hx : x = id
    · subst hx
      rcases hc : mapGet cache x with _ | c
      · simp [freshLeagueEntry, hc]
      · by_cases ht : now - freshWindowMs < c.lastUpdated
        · have he : freshLeagueEntry cache now x = some ⟨c.name, c.tier⟩ := by
            simp [freshLeagueEntry, hc, ht]
          by_cases hxs : x ∈ xs <;>
            simp [hc, ht, he, mapGet_mapSet, hxs]
        · have he : freshLeagueEntry cache now x = none := by
            simp [freshLeagueEntry, hc, ht]
          by_cases hxs : x ∈ xs <;>
            simp [hc, ht, he, hxs]
    · have hstep : mapGet
          (match mapGet cache x with
            | some c =>
              if now - freshWindowMs < c.lastUpdated then mapSet acc x ⟨c.name, c.tier⟩ else acc
            | none => acc) id = mapGet acc id := by
        rcases mapGet cache x with _ | c
        · rfl
        · by_cases ht : now - freshWindowMs < c.lastUpdated <;>
            simp [ht, mapGet_mapSet, Ne.symm hx]
      rw [hstep]
      have hx' : ¬ id = x := fun h => hx h.symm
      simp [List.mem_cons, hx']

theorem leagueHitsMap_get (cache : LeagueCache) (now : Int) (ids : List Nat) (id : Nat) :
    mapGet (leagueHitsMap cache now ids) id =
      if id ∈ ids ∧ (freshLeagueEntry cache now id).isSome = true
      then freshLeagueEntry cache now id else none := by
  unfold leagueHitsMap
  rw [leagueHits_foldl_get]
  rfl

/-- `missing` is exactly the requested ids without a fresh cache entry. -/
theorem leagueMissing_eq (cache : LeagueCache) (now : Int) (ids : List Nat) :
    leagueMissing cache now ids = ids.filter (fun id => !isFreshLeague cache now id) := by
  unfold leagueMissing
  apply List.filter_congr
  intro id hid
  rw [leagueHitsMap_get]
  by_cases hf : isFreshLeague cache now id
  · rw [if_pos ⟨hid, by rw [freshLeagueEntry_isSome]; exact hf⟩]
    have := freshLeagueEntry_isSome cache now id
    rw [hf] at this
    rcases hsome : freshLeagueEntry cache now id with _ | v
    · rw [hsome] at this
      simp at this
    · simp [hf]
  · rw [if_neg (by rw [freshLeagueEntry_isSome]; exact fun h => hf h.2)]
    simp [hf]

theorem leagueMissing_isEmpty_iff (cache : LeagueCache) (now : Int) (ids : List Nat) :
    (leagueMissing cache now ids).isEmpty = true ↔
      ∀ id ∈ ids, isFreshLeague cache now id = true := by
  rw [leagueMissing_eq, List.isEmpty_iff, List.filter_eq_nil_iff]
  constructor
  · intro h id hid
    have := h id hid
    simpa using this
  · intro h id hid
    simp [h id hid]

theorem freshTeamEntry_isSome (cache : TeamCache) (now : Int) (id : Nat) :
    (freshTeamEntry cache now id).isSome = isFreshTeam cache now id := by
  unfold freshTeamEntry isFreshTeam
  rcases mapGet cache id with _ | c
  · rfl
  · by_cases h : now - freshWindowMs < c.lastUpdated <;> simp [h]

/-- The map component of the first `hydrateTeams` loop, over any accumulator. -/
theorem teamPhase1_foldl_get (cache : TeamCache) (now : Int) (ids : List Nat)
    (acc : TeamMap × List Nat) (id : Nat) :
    mapGet (ids.foldl (fun p i =>
        if i = 0 then p
        else
          match mapGet cache i with
          | some c =>
            if now - freshWindowMs < c.lastUpdated then (mapSet p.1 i ⟨c.name, c.logo⟩, p.2)
            else (p.1, p.2 ++ [i])
          | none => (p.1, p.2 ++ [i])) acc).1 id =
      if id ∈ ids ∧ id ≠ 0 ∧ (freshTeamEntry cache now id).isSome = true
      then freshTeamEntry cache now id else mapGet acc.1 id := by
  induction ids generalizing acc with
  | nil => simp
  | cons x xs ih =>
    rw [List.foldl_cons, ih]
    by_cases hx : x = id
    · subst hx
      by_cases h0 : x = 0
      · subst h0
        by_cases hxs : (0 : Nat) ∈ xs <;> simp [hxs]
      · rcases hc : mapGet cache x with _ | c
        · simp [freshTeamEntry, hc, h0]
        · by_cases ht : now - freshWindowMs < c.lastUpdated
          · have he : freshTeamEntry cache now x = some ⟨c.name, c.logo⟩ := by
              simp [freshTeamEntry, hc, ht]
            by_cases hxs : x ∈ xs <;>
              simp [h0, hc, ht, he, mapGet_mapSet, hxs]
          · have he : freshTeamEntry cache now x = none := by
              simp [freshTeamEntry, hc, ht]
            by_cases hxs : x ∈ xs <;>
              simp [h0, hc, ht, he, hxs]
    · have hstep : mapGet
          ((if x = 0 then acc
            else
              match mapGet cache x with
              | some c =>
                if now - freshWindowMs < c.lastUpdated then (mapSet acc.1 x ⟨c.name, c.logo⟩, acc.2)
                else (acc.1, acc.2 ++ [x])
              | none => (acc.1, acc.2 ++ [x])) : TeamMap × List Nat).1 id = mapGet acc.1 id := by
        by_cases h0 : x = 0
        · simp [h0]
        · rcases mapGet cache x with _ | c
          · simp [h0]
          · by_cases ht : now - freshWindowMs < c.lastUpdated <;>
              simp [h0, ht, mapGet_mapSet, Ne.symm hx]
      rw [hstep]
      have hx' : ¬ id = x := fun h => hx h.symm
      simp [List.mem_cons, hx']

/-- The missing component of the first `hydrateTeams` loop: the requested
non-falsy ids without a fresh cache entry, appended in order. -/
theorem teamPhase1_foldl_missing (cache : TeamCache) (now : Int) (ids : List Nat)
    (acc : TeamMap × List Nat) :
    (ids.foldl (fun p i =>
        if i = 0 then p
        else
          match mapGet cache i with
          | some c =>
            if now - freshWindowMs < c.lastUpdated then (mapSet p.1 i ⟨c.name, c.logo⟩, p.2)
            else (p.1, p.2 ++ [i])
          | none => (p.1, p.2 ++ [i])) acc).2 =
      acc.2 ++ ids.filter (fun i => !(i == 0) && !(isFreshTeam cache now i)) := by
  induction ids generalizing acc with
  | nil => simp
  | cons x xs ih =>
    rw [List.foldl_cons, ih, List.filter_cons]
    by_cases h0 : x = 0
    · simp [h0]
    · rcases hc : mapGet cache x with _ | c
      · simp [h0, hc, isFreshTeam, List.append_assoc]
      · by_cases ht : now - freshWindowMs < c.lastUpdated
        · simp [h0, hc, ht, isFreshTeam]
        · simp [h0, hc, ht, isFreshTeam, List.append_assoc]

theorem teamPhase1_missing (cache : TeamCache) (now : Int) (ids : List Nat) :
    (teamPhase1 cache now ids).2 =
      ids.filter (fun i => !(i == 0) && !(isFreshTeam cache now i)) := by
  unfold teamPhase1
  rw [teamPhase1_foldl_missing]
  rfl

theorem teamPhase1_get (cache : TeamCache) (now : Int) (ids : List Nat) (id : Nat) :
    mapGet (teamPhase1 cache now ids).1 id =
      if id ∈ ids ∧ id ≠ 0 ∧ (freshTeamEntry cache now id).isSome = true
      then freshTeamEntry cache now id else none := by
  unfold teamPhase1
  rw [teamPhase1_foldl_get]
  rfl

/-- The second `hydrateTeams` loop leaves at key `id`: the fetched entry if
`id` was fetched successfully (idempotent on repeats), and the starting
value otherwise. -/
theorem teamPhase2_get (now : Int) (fetchTeam : Nat → Except String (Option TeamApiEntry))
    (missing : List Nat) (start : TeamMap × TeamCache) (id : Nat) :
    mapGet (teamPhase2 now fetchTeam missing start).1 id =
      if id ∈ missing ∧ (fetchedTeamEntry fetchTeam id).isSome = true
      then fetchedTeamEntry fetchTeam id else mapGet start.1 id := by
  induction missing generalizing start with
  | nil => simp [teamPhase2]
  | cons x xs ih =>
    unfold teamPhase2 at ih ⊢
    rw [List.foldl_cons, ih]
    by_cases hx : x = id
    · subst hx
      rcases hf : fetchTeam x with e | o
      · have he : fetchedTeamEntry fetchTeam x = none := by simp [fetchedTeamEntry, hf]
        by_cases hxs : x ∈ xs <;> simp [hf, he, hxs]
      · rcases o with _ | entry
        · have he : fetchedTeamEntry fetchTeam x = none := by simp [fetchedTeamEntry, hf]
          by_cases hxs : x ∈ xs <;> simp [hf, he, hxs]
        · have he : fetchedTeamEntry fetchTeam x =
              some ⟨teamFetchedName x entry, teamFetchedLogo entry⟩ := by
            simp [fetchedTeamEntry, hf]
          by_cases hxs : x ∈ xs <;> simp [hf, he, hxs, mapGet_mapSet]
    · have hstep : mapGet
          ((match fetchTeam x with
            | .error _ => start
            | .ok none => start
            | .ok (some entry) =>
              (mapSet start.1 x ⟨teamFetchedName x entry, teamFetchedLogo entry⟩,
               mapSet start.2 x ⟨teamFetchedName x entry, teamFetchedLogo entry, now⟩)) :
            TeamMap × TeamCache).1 id = mapGet start.1 id := by
        rcases fetchTeam x with e | o
        · rfl
        · rcases o with _ | entry
          · rfl
          · simp [mapGet_mapSet, Ne.symm hx]
      rw [hstep]
      have hx' : ¬ id = x := fun h => hx h.symm
      simp [List.mem_cons, hx']

/-- End-to-end lookup characterization for `hydrateTeams`. -/
theorem hydrateTeams_get (cache : TeamCache) (now : Int)
    (fetchTeam : Nat → Except String (Option TeamApiEntry)) (ids : List Nat) (id : Nat) :
    mapGet (hydrateTeams cache now fetchTeam ids).1 id =
      if id ∈ ids ∧ id ≠ 0 ∧ isFreshTeam cache now id = false ∧
          (fetchedTeamEntry fetchTeam id).isSome = true
      then fetchedTeamEntry fetchTeam id
      else if id ∈ ids ∧ id ≠ 0 ∧ (freshTeamEntry cache now id).isSome = true
      then freshTeamEntry cache now id else none := by
  unfold hydrateTeams
  rw [teamPhase2_get, teamPhase1_missing, teamPhase1_get]
  by_cases hmem : id ∈ ids
  · by_cases h0 : id = 0
    · simp [h0, List.mem_filter]
    · by_cases hfr : isFreshTeam cache now id
      · have : id ∉ ids.filter (fun i => !(i == 0) && !(isFreshTeam cache now i)) := by
          intro hcontra
          have := (List.mem_filter.mp hcontra).2
          simp [hfr] at this
        simp [this, hmem, h0, hfr, freshTeamEntry_isSome]
      · have hmemf : id ∈ ids.filter (fun i => !(i == 0) && !(isFreshTeam cache now i)) := by
          refine List.mem_filter.mpr ⟨hmem, ?_⟩
          simp [h0, hfr]
        by_cases hfe : (fetchedTeamEntry fetchTeam id).isSome
        · simp [hmemf, hmem, h0, hfr, hfe]
        · simp [hmemf, hmem, h0, hfr, hfe, freshTeamEntry_isSome,
            Bool.not_eq_true, eq_false_of_ne_true]
  · have : id ∉ ids.filter (fun i => !(i == 0) && !(isFreshTeam cache now i)) := by
      intro hcontra
      exact hmem (List.mem_filter.mp hcontra).1
    simp [this, hmem]

/-! ## Small facts about the JS string helpers -/

theorem jsOrStrD_ne_empty (a : Option String) (d : String) (hd : d ≠ "") :
    jsOrStrD a d ≠ "" := by
  unfold jsOrStrD
  rcases a with _ | s
  · exact hd
  · by_cases hs : s = "" <;> simp [hs, hd]

theorem teamLabel_ne_empty (id : Nat) : ("Team " ++ toString id) ≠ "" := by
  intro h
  have h' := congrArg String.length h
  rw [String.length_append] at h'
  have h5 : ("Team " : String).length = 5 := rfl
  have h0 : ("" : String).length = 0 := rfl
  omega

/-- The name `hydrateTeams` stores for a fetched entry is never empty. -/
theorem teamFetchedName_ne_empty (id : Nat) (e : TeamApiEntry) :
    teamFetchedName id e ≠ "" :=
  jsOrStrD_ne_empty _ _ (jsOrStrD_ne_empty _ _ (teamLabel_ne_empty id))

theorem jsOrStr_some_of_ne_empty (s : String) (b : Option String) (hs : s ≠ "") :
    jsOrStr (some s) b = some s := by
  simp [jsOrStr, hs]

theorem jsOrStr_none (b : Option String) : jsOrStr none b = b := rfl

/-- Resolving a side name against a map entry whose name is non-empty
yields that name. -/
theorem resolveSideName_hit (tm : TeamMap) (id : Nat) (entry : TeamEntry)
    (rawName : Option String) (h : mapGet tm id = some entry) (hne : entry.name ≠ "") :
    resolveSideName tm (some id) rawName = some entry.name := by
  simp [resolveSideName, teamMapGetOpt, h, jsOrStr_some_of_ne_empty _ _ hne]

/-- Resolving a side name with no map entry falls through to the raw
upstream name field, whatever it is. -/
theorem resolveSideName_miss (tm : TeamMap) (id : Nat) (rawName : Option String)
    (h : mapGet tm id = none) :
    resolveSideName tm (some id) rawName = rawName := by
  simp [resolveSideName, teamMapGetOpt, h, jsOrStr]

theorem resolveSideName_noId (tm : TeamMap) (rawName : Option String) :
    resolveSideName tm none rawName = rawName := rfl

/-! ## Claim C9 -/

/-- Claim C9: `seriesText` maps the upstream series code 0 to "Bo1", 1 to
"Bo3", 2 to "Bo5", and every other value — including a missing code — to
"Live"; a hydrated match's `seriesType` is exactly this label. -/
theorem seriesText_fixed_mapping :
    seriesText (some 0) = "Bo1" ∧ seriesText (some 1) = "Bo3" ∧
    seriesText (some 2) = "Bo5" ∧ seriesText none = "Live" ∧
    (∀ t : Option Int, t ≠ some 0 → t ≠ some 1 → t ≠ some 2 → seriesText t = "Live") ∧
    (∀ lm tm g, (mergeMatch lm tm g).seriesType = seriesText g.series_type) := by
  refine ⟨rfl, rfl, rfl, rfl, ?_, fun lm tm g => rfl⟩
  intro t h0 h1 h2
  simp [seriesText, h0, h1, h2]

/-- Witness for C9: code 7 is none of 0, 1, 2 and labels as "Live". -/
theorem seriesText_fixed_mapping_witness :
    (some 7 : Option Int) ≠ some 0 ∧ (some 7 : Option Int) ≠ some 1 ∧
    (some 7 : Option Int) ≠ some 2 ∧ seriesText (some 7) = "Live" :=
  ⟨by decide, by decide, by decide,
    seriesText_fixed_mapping.2.2.2.2.1 (some 7) (by decide) (by decide) (by decide)⟩

/-! ## Claim C10 -/

/-- Claim C10: `formatObjectiveState` always renders
"Towers R.. / D.. • Barracks R.. / D.. • (rosh)", and the Roshan segment is
"Roshan unknown" whenever `roshan_respawn_timer` is absent or exactly 0 (the
JS falsy check) — a 0-second timer is never reported as "Roshan in 0s";
hydrated matches carry this string as `state`. -/
theorem formatObjectiveState_shape :
    (∀ g : RawMatch, formatObjectiveState g =
        towersStr g ++ " • " ++ barracksStr g ++ " • " ++ roshStr g.roshan_respawn_timer) ∧
    (∀ g : RawMatch, towersStr g =
        "Towers R" ++ jsShowNum g.radiant_tower_state ++ " / D" ++
          jsShowNum g.dire_tower_state) ∧
    (∀ g : RawMatch, barracksStr g =
        "Barracks R" ++ jsShowNum g.radiant_barracks_state ++ " / D" ++
          jsShowNum g.dire_barracks_state) ∧
    (∀ t : Option Int, t = none ∨ t = some 0 → roshStr t = "Roshan unknown") ∧
    roshStr (some 0) ≠ "Roshan in 0s" ∧
    (∀ t : Int, t ≠ 0 → roshStr (some t) = "Roshan in " ++ toString t ++ "s") ∧
    (∀ lm tm g, (mergeMatch lm tm g).state = formatObjectiveState g) := by
  refine ⟨fun g => rfl, fun g => rfl, fun g => rfl, ?_, by decide, ?_, fun lm tm g => rfl⟩
  · rintro t (rfl | rfl) <;> simp [roshStr]
  · intro t ht
    simp [roshStr, ht]

/-- Witness for C10: a timer of exactly 0 seconds reads "Roshan unknown". -/
theorem formatObjectiveState_shape_witness :
    ((some 0 : Option Int) = none ∨ (some 0 : Option Int) = some 0) ∧
    roshStr (some 0) = "Roshan unknown" :=
  ⟨Or.inr rfl, formatObjectiveState_shape.2.2.2.1 (some 0) (Or.inr rfl)⟩

/-! ## Claim C4 -/

/-- Claim C4: the hydrate merge returns exactly one hydrated match per input
raw match, preserving length and order: position `i` of the output is the
merge of position `i` of the input. -/
theorem hydrate_length_and_order (lm : LeagueMap) (tm : TeamMap) (games : List RawMatch) :
    (hydrateMerge lm tm games).length = games.length ∧
    ∀ i : Nat, (hydrateMerge lm tm games)[i]? = (games[i]?).map (mergeMatch lm tm) :=
  ⟨List.length_map _ _, fun i => by simp [hydrateMerge]⟩

/-! ## Claim C6 -/

/-- Claim C6: when the live-feed upstream returns HTTP 404, the
`/live/dota/featured` endpoint treats it as "no live matches": HTTP 200 with
body `{count: 0, items: []}`, not an error envelope.  (Internally the 404
becomes a `Request failed (404)` rejection of the retry wrapper, which the
feed call's catch turns into the empty list.) -/
theorem feed404_no_live_matches (body : String) (feedAt : Nat → FetchOutcome)
    (feedBody : Response → Except String (List RawMatch))
    (lc : LeagueCache) (tc : TeamCache) (now : Int)
    (catalog : Except String (List CatalogLeague))
    (fetchTeam : Nat → Except String (Option TeamApiEntry))
    (h : ∀ n, feedAt n = .ok ⟨404, body⟩) :
    liveDotaFeatured true feedAt feedBody lc tc now catalog fetchTeam
      = (200, .success 0 []) := by
  have hbad : ∀ k, ∀ r : Response, feedAt k = .ok r → r.ok = false := by
    intro k r hr
    rw [h k] at hr
    cases hr
    rfl
  obtain ⟨e, he⟩ := fetchWithRetry_error feedAt 2 hbad
  simp [liveDotaFeatured, getFeaturedDotaGames, he]

/-- Witness for C6 at a concrete 404 feed. -/
theorem feed404_no_live_matches_witness :
    (∀ n, feed404At n = .ok ⟨404, "not found"⟩) ∧
    liveDotaFeatured true feed404At (fun _ => .ok []) [] [] 0 (.ok []) noTeams
      = (200, .success 0 []) :=
  ⟨fun _ => rfl,
    feed404_no_live_matches "not found" feed404At (fun _ => .ok []) [] [] 0 (.ok [])
      noTeams (fun _ => rfl)⟩

/-! ## Claim C2 -/

/-- Claim C2 counterexample: a feed match referencing league 7, with the
catalog call succeeding but not listing league 7, hydrates with
`leagueName` undefined — not the claimed fallback string "League 7". -/
theorem leagueName_fallback_counterexample :
    Except.map (List.map HydratedMatch.leagueName)
        (getFeaturedDotaGames feedOkAt (fun _ => .ok [rawLeague7]) [] [] 0 (.ok []) noTeams)
      = .ok [none] := by
  rfl

/-- Claim C2 (amended): `leagueName` is the league-map entry's name when the
match's league id resolves there, and undefined (absent) otherwise — the
merge never synthesizes a "League (id)" label. -/
theorem leagueName_resolution :
    (∀ lm tm g id entry, g.league_id = some id → mapGet lm id = some entry →
        (mergeMatch lm tm g).leagueName = some entry.name) ∧
    (∀ lm tm g, g.league_id.bind (mapGet lm) = none →
        (mergeMatch lm tm g).leagueName = none) := by
  constructor
  · intro lm tm g id entry hid hentry
    simp [mergeMatch, resolveLeagueName, hid, hentry]
  · intro lm tm g h
    simp [mergeMatch, resolveLeagueName, h]

/-- Witness for the amended C2: league 7 resolves to its cached name. -/
theorem leagueName_resolution_witness :
    rawLeague7.league_id = some 7 ∧
    mapGet [(7, LeagueEntry.mk "The International" (some "premium"))] 7
      = some (LeagueEntry.mk "The International" (some "premium")) ∧
    (mergeMatch [(7, LeagueEntry.mk "The International" (some "premium"))] []
        rawLeague7).leagueName = some "The International" :=
  ⟨rfl, rfl,
    leagueName_resolution.1 [(7, LeagueEntry.mk "The International" (some "premium"))] []
      rawLeague7 7 (LeagueEntry.mk "The International" (some "premium")) rfl rfl⟩

/-! ## Claim C7 -/

/-- Claim C7 counterexample: a match whose radiant team id misses the team
map and whose raw `radiant_name` is absent hydrates with an undefined
radiant display name — the merge has no synthesized third-level label, so
the display name is not always defined. -/
theorem side_name_fallback_counterexample :
    Except.map (List.map (fun h => h.radiant.name))
        (getFeaturedDotaGames feedOkAt (fun _ => .ok [rawTeam5]) [] [] 0 (.ok []) teamsDown)
      = .ok [none] := by
  rfl

/-- Claim C7 (amended): the merge resolves a side's display name in two
levels — team-map entry name if present (and non-empty), else the raw
upstream name field, else undefined; the synthesized "Team (id)" label is
created only inside `hydrateTeams`, as the stored name of a fetched entry
that has neither name nor tag (and a stored name is never empty). -/
theorem side_name_resolution :
    (∀ lm tm g, (mergeMatch lm tm g).radiant.name
        = resolveSideName tm g.radiant_team_id g.radiant_name ∧
      (mergeMatch lm tm g).dire.name = resolveSideName tm g.dire_team_id g.dire_name) ∧
    (∀ tm id entry rawName, mapGet tm id = some entry → entry.name ≠ "" →
        resolveSideName tm (some id) rawName = some entry.name) ∧
    (∀ tm id rawName, mapGet tm id = none →
        resolveSideName tm (some id) rawName = rawName) ∧
    (∀ (id : Nat) (e : TeamApiEntry), e.name = none → e.tag = none →
        teamFetchedName id e = "Team " ++ toString id) ∧
    (∀ (id : Nat) (e : TeamApiEntry), teamFetchedName id e ≠ "") := by
  refine ⟨fun lm tm g => ⟨rfl, rfl⟩, resolveSideName_hit, resolveSideName_miss, ?_,
    teamFetchedName_ne_empty⟩
  intro id e h1 h2
  simp [teamFetchedName, jsOrStrD, h1, h2]

/-- Witness for the amended C7: a cached team name wins over the raw name. -/
theorem side_name_resolution_witness :
    mapGet [(5, TeamEntry.mk "Team Alpha" none)] 5 = some (TeamEntry.mk "Team Alpha" none) ∧
    ("Team Alpha" : String) ≠ "" ∧
    resolveSideName [(5, TeamEntry.mk "Team Alpha" none)] (some 5) (some "raw name")
      = some "Team Alpha" :=
  ⟨rfl, by decide,
    side_name_resolution.2.1 [(5, TeamEntry.mk "Team Alpha" none)] 5
      (TeamEntry.mk "Team Alpha" none) (some "raw name") rfl (by decide)⟩

/-! ## Claim C3 -/

/-- Claim C3 counterexample: with the upstream feed totally unavailable
(every attempt rejects), `/live/dota/featured` answers HTTP 200 with an
empty success body — not the claimed 500 error envelope. -/
theorem feed_unavailable_counterexample :
    liveDotaFeatured true feedDownAt (fun _ => .ok []) [] [] 0 (.ok []) noTeams
      = (200, .success 0 []) ∧ (200 : Nat) ≠ 500 :=
  ⟨rfl, by decide⟩

/-- Claim C3 (amended): total unavailability of the primary feed is
swallowed by the feed call's catch — the endpoint answers 200 with
`{count: 0, items: []}`; the 500 `{error, message}` envelope is produced by
failures after the fetch, e.g. a feed body that fails to parse. -/
theorem feed_unavailable_amended :
    (∀ feedAt feedBody lc tc now catalog fetchTeam,
      (∀ k, ∀ r : Response, feedAt k = .ok r → r.ok = false) →
      liveDotaFeatured true feedAt feedBody lc tc now catalog fetchTeam
        = (200, .success 0 [])) ∧
    (∀ feedAt feedBody lc tc now catalog fetchTeam resp e,
      fetchWithRetry feedAt 2 = .ok resp → feedBody resp = .error e →
      liveDotaFeatured true feedAt feedBody lc tc now catalog fetchTeam
        = (500, .failure "failed_to_fetch_live" (some e))) := by
  constructor
  · intro feedAt feedBody lc tc now catalog fetchTeam h
    obtain ⟨e, he⟩ := fetchWithRetry_error feedAt 2 h
    simp [liveDotaFeatured, getFeaturedDotaGames, he]
  · intro feedAt feedBody lc tc now catalog fetchTeam resp e hresp hbody
    have hok := fetchWithRetry_ok hresp
    simp [liveDotaFeatured, getFeaturedDotaGames, hresp, hok, hbody]

/-- Witness for the amended C3: a rejecting feed gives the empty 200 body; a
feed whose body fails to parse gives the 500 envelope. -/
theorem feed_unavailable_amended_witness :
    (∀ k, ∀ r : Response, feedDownAt k = .ok r → r.ok = false) ∧
    liveDotaFeatured true feedDownAt (fun _ => .ok []) [] [] 1 (.ok []) noTeams
      = (200, .success 0 []) ∧
    fetchWithRetry feedOkAt 2 = .ok ⟨200, "feed-body"⟩ ∧
    liveDotaFeatured true feedOkAt (fun _ => .error "bad json") [] [] 0 (.ok []) noTeams
      = (500, .failure "failed_to_fetch_live" (some "bad json")) :=
  ⟨(fun _ _ hr => Except.noConfusion hr),
    feed_unavailable_amended.1 feedDownAt (fun _ => .ok []) [] [] 1 (.ok []) noTeams
      (fun _ _ hr => Except.noConfusion hr),
    rfl,
    feed_unavailable_amended.2 feedOkAt (fun _ => .error "bad json") [] [] 0 (.ok [])
      noTeams ⟨200, "feed-body"⟩ "bad json" rfl rfl⟩

/-! ## Claim C1 -/

/-- Claim C1 counterexample: with league 7 uncached and the batched
league-catalog call failing, the failure escapes `hydrateLeagues` and the
whole hydrate call returns the error — it does propagate to the caller. -/
theorem league_catalog_failure_counterexample :
    getFeaturedDotaGames feedOkAt (fun _ => .ok [rawLeague7]) [] [] 0
        (.error "league catalog down") noTeams
      = .error "league catalog down" := by
  rfl

/-- Claim C1 (amended): a failing batched league-catalog call is not
absorbed: `hydrateLeagues` returns the error exactly when at least one
requested league id lacks a fresh cache entry — in which case the whole
`getFeaturedDotaGames` call fails — and proceeds from cache alone only when
every requested id is fresh. -/
theorem league_catalog_failure_amended :
    (∀ cache now ids e,
      hydrateLeagues cache now (.error e) ids
        = if (leagueMissing cache now ids).isEmpty
          then .ok (leagueHitsMap cache now ids, cache) else .error e) ∧
    (∀ feedAt feedBody lc tc now e fetchTeam resp games,
      fetchWithRetry feedAt 2 = .ok resp → feedBody resp = .ok games →
      (leagueMissing lc now (collectLeagueIds games)).isEmpty = false →
      getFeaturedDotaGames feedAt feedBody lc tc now (.error e) fetchTeam
        = .error e) := by
  constructor
  · intro cache now ids e
    unfold hydrateLeagues
    by_cases h : (leagueMissing cache now ids).isEmpty <;> simp [h]
  · intro feedAt feedBody lc tc now e fetchTeam resp games hresp hbody hmiss
    have hok := fetchWithRetry_ok hresp
    simp [getFeaturedDotaGames, hresp, hok, hbody, hydrateLeagues, hmiss]

/-- Witness for the amended C1 at a concrete stale-cache input. -/
theorem league_catalog_failure_amended_witness :
    fetchWithRetry feedOkAt 2 = .ok ⟨200, "feed-body"⟩ ∧
    ((fun _ => Except.ok [rawLeague7] : Response → Except String (List RawMatch))
        (⟨200, "feed-body"⟩ : Response)) = .ok [rawLeague7] ∧
    (leagueMissing [] 0 (collectLeagueIds [rawLeague7])).isEmpty = false ∧
    getFeaturedDotaGames feedOkAt (fun _ => .ok [rawLeague7]) [] [] 0
        (.error "catalog boom") noTeams = .error "catalog boom" :=
  ⟨rfl, rfl, rfl,
    league_catalog_failure_amended.2 feedOkAt (fun _ => .ok [rawLeague7]) [] [] 0
      "catalog boom" noTeams ⟨200, "feed-body"⟩ [rawLeague7] rfl rfl rfl⟩

/-! ## Claim C8 -/

/-- Claim C8: when every requested league id has a cache entry younger than
5 minutes, `hydrateLeagues` resolves them all from cache and issues no
upstream catalog call (the result is independent of the catalog outcome);
the upstream call is reached exactly when some requested id is missing or
stale. -/
theorem league_fresh_cache_no_call (cache : LeagueCache) (now : Int) (ids : List Nat) :
    (leagueCallMade cache now ids = false ↔
      ∀ id ∈ ids, isFreshLeague cache now id = true) ∧
    ((∀ id ∈ ids, isFreshLeague cache now id = true) →
      ∀ c₁ c₂ : Except String (List CatalogLeague),
        hydrateLeagues cache now c₁ ids = .ok (leagueHitsMap cache now ids, cache) ∧
        hydrateLeagues cache now c₁ ids = hydrateLeagues cache now c₂ ids) ∧
    ((∀ id ∈ ids, isFreshLeague cache now id = true) →
      ∀ id ∈ ids, ∃ c, mapGet cache id = some c ∧
        mapGet (leagueHitsMap cache now ids) id = some ⟨c.name, c.tier⟩) := by
  have hiff := leagueMissing_isEmpty_iff cache now ids
  refine ⟨?_, ?_, ?_⟩
  · unfold leagueCallMade
    constructor
    · intro h
      refine hiff.mp ?_
      revert h
      cases (leagueMissing cache now ids).isEmpty <;> simp
    · intro h
      rw [hiff.mpr h]
      rfl
  · intro h c₁ c₂
    have he : (leagueMissing cache now ids).isEmpty = true := hiff.mpr h
    constructor <;> (unfold hydrateLeagues; rw [he]; simp)
  · intro h id hid
    have hf := h id hid
    have hs : (freshLeagueEntry cache now id).isSome = true := by
      rw [freshLeagueEntry_isSome]
      exact hf
    rcases hc : mapGet cache id with _ | c
    · exfalso
      unfold isFreshLeague at hf
      rw [hc] at hf
      simp at hf
    · refine ⟨c, rfl, ?_⟩
      rw [leagueHitsMap_get, if_pos ⟨hid, hs⟩]
      unfold isFreshLeague at hf
      rw [hc] at hf
      simp only [decide_eq_true_eq] at hf
      unfold freshLeagueEntry
      rw [hc]
      simp [hf]

/-- Witness for C8: one league cached a minute ago is served from cache even
though the catalog call would fail. -/
theorem league_fresh_cache_no_call_witness :
    (∀ id ∈ [7], isFreshLeague [(7, LeagueCacheEntry.mk "Minor" none 0)] 60000 id = true) ∧
    hydrateLeagues [(7, LeagueCacheEntry.mk "Minor" none 0)] 60000 (.error "down") [7]
      = .ok (leagueHitsMap [(7, LeagueCacheEntry.mk "Minor" none 0)] 60000 [7],
          [(7, LeagueCacheEntry.mk "Minor" none 0)]) :=
  ⟨by decide,
    ((league_fresh_cache_no_call [(7, LeagueCacheEntry.mk "Minor" none 0)] 60000 [7]).2.1
      (by decide) (.error "down") (.ok [])).1⟩

/-! ## Claim C5 -/

/-- Claim C5: inside one `hydrateTeams` call, a failed lookup for team `a`
is caught locally — `a` is simply absent from the result map, so its merge
falls back to the raw upstream name — while team `b`, whose lookup
succeeded, maps to its fetched name, and fresh-cached teams keep their
cached entries; a single failure never aborts or degrades the rest. -/
theorem hydrateTeams_failure_isolation
    (cache : TeamCache) (now : Int)
    (ft : Nat → Except String (Option TeamApiEntry)) (ids : List Nat)
    (a b : Nat) (e : String) (entry : TeamApiEntry)
    (ha : a ∈ ids) (hb : b ∈ ids) (ha0 : a ≠ 0) (hb0 : b ≠ 0)
    (hfa : isFreshTeam cache now a = false) (hfb : isFreshTeam cache now b = false)
    (hea : ft a = .error e) (heb : ft b = .ok (some entry)) :
    mapGet (hydrateTeams cache now ft ids).1 a = none ∧
    mapGet (hydrateTeams cache now ft ids).1 b
      = some ⟨teamFetchedName b entry, teamFetchedLogo entry⟩ ∧
    (∀ c ∈ ids, c ≠ 0 → isFreshTeam cache now c = true →
      mapGet (hydrateTeams cache now ft ids).1 c = freshTeamEntry cache now c) ∧
    (∀ lm g, g.radiant_team_id = some a →
      (mergeMatch lm (hydrateTeams cache now ft ids).1 g).radiant.name = g.radiant_name) ∧
    (∀ lm g, g.radiant_team_id = some b →
      (mergeMatch lm (hydrateTeams cache now ft ids).1 g).radiant.name
        = some (teamFetchedName b entry)) := by
  have hga : mapGet (hydrateTeams cache now ft ids).1 a = none := by
    rw [hydrateTeams_get]
    have h1 : ¬(a ∈ ids ∧ a ≠ 0 ∧ isFreshTeam cache now a = false ∧
        (fetchedTeamEntry ft a).isSome = true) := by
      rintro ⟨-, -, -, hsome⟩
      rw [show fetchedTeamEntry ft a = none from by simp [fetchedTeamEntry, hea]] at hsome
      simp at hsome
    have h2 : ¬(a ∈ ids ∧ a ≠ 0 ∧ (freshTeamEntry cache now a).isSome = true) := by
      rintro ⟨-, -, hsome⟩
      rw [freshTeamEntry_isSome, hfa] at hsome
      simp at hsome
    rw [if_neg h1, if_neg h2]
  have hgb : mapGet (hydrateTeams cache now ft ids).1 b
      = some ⟨teamFetchedName b entry, teamFetchedLogo entry⟩ := by
    rw [hydrateTeams_get]
    have hfetch : fetchedTeamEntry ft b
        = some ⟨teamFetchedName b entry, teamFetchedLogo entry⟩ := by
      simp [fetchedTeamEntry, heb]
    rw [if_pos ⟨hb, hb0, hfb, by rw [hfetch]; rfl⟩]
    exact hfetch
  refine ⟨hga, hgb, ?_, ?_, ?_⟩
  · intro c hc hc0 hfc
    rw [hydrateTeams_get]
    have h1 : ¬(c ∈ ids ∧ c ≠ 0 ∧ isFreshTeam cache now c = false ∧
        (fetchedTeamEntry ft c).isSome = true) := by
      rintro ⟨-, -, hfalse, -⟩
      rw [hfc] at hfalse
      exact absurd hfalse (by simp)
    rw [if_neg h1,
      if_pos ⟨hc, hc0, by rw [freshTeamEntry_isSome]; exact hfc⟩]
  · intro lm g hg
    have : (mergeMatch lm (hydrateTeams cache now ft ids).1 g).radiant.name
        = resolveSideName (hydrateTeams cache now ft ids).1 g.radiant_team_id
            g.radiant_name := rfl
    rw [this, hg, resolveSideName_miss _ _ _ hga]
  · intro lm g hg
    have : (mergeMatch lm (hydrateTeams cache now ft ids).1 g).radiant.name
        = resolveSideName (hydrateTeams cache now ft ids).1 g.radiant_team_id
            g.radiant_name := rfl
    rw [this, hg, resolveSideName_hit _ _ _ _ hgb (teamFetchedName_ne_empty b entry)]

/-- Witness for C5: team 5's lookup fails while team 9 fetches "Liquid" in
the same call; 9 resolves, 5 stays unresolved. -/
theorem hydrateTeams_failure_isolation_witness :
    (5 ∈ [5, 9] ∧ 9 ∈ [5, 9] ∧ (5 : Nat) ≠ 0 ∧ (9 : Nat) ≠ 0 ∧
      isFreshTeam [] 0 5 = false ∧ isFreshTeam [] 0 9 = false ∧
      ftDemo 5 = .error "boom" ∧ ftDemo 9 = .ok (some liquidEntry)) ∧
    mapGet (hydrateTeams [] 0 ftDemo [5, 9]).1 5 = none ∧
    mapGet (hydrateTeams [] 0 ftDemo [5, 9]).1 9
      = some ⟨teamFetchedName 9 liquidEntry, teamFetchedLogo liquidEntry⟩ :=
  ⟨⟨by decide, by decide, by decide, by decide, rfl, rfl, rfl, rfl⟩,
    (hydrateTeams_failure_isolation [] 0 ftDemo [5, 9] 5 9 "boom" liquidEntry
      (by decide) (by decide) (by decide) (by decide) rfl rfl rfl rfl).1,
    (hydrateTeams_failure_isolation [] 0 ftDemo [5, 9] 5 9 "boom" liquidEntry
      (by decide) (by decide) (by decide) (by decide) rfl rfl rfl rfl).2.1⟩

end SteamDashboard
